import Mathlib

/-!
# Verification of the `vehicle_nn_core` ingestion pipeline

Shallow embedding of the message model, sampling policy, statistics core and
the `submit_message` path of the Rust sources (`src/types.rs`, `src/error.rs`,
`src/performance.rs`, `src/message_processor.rs`).

Modelling conventions:
* Rust `u64` counters are `Nat` with explicit `% 2^64` where the source could
  wrap; `f64` / `f32` values that the claims exercise at small concrete inputs
  are modelled as `ℚ` (the source performs no operation on them that would
  make rounding observable at the inputs used here).
* `serde_json::Value` is an inductive `JsonValue`; objects are association
  lists.  The crate uses the default `serde_json` map (a `BTreeMap`), so an
  object's canonical form is the value itself.
* `std::collections::hash_map::DefaultHasher` (SipHash-1-3 with fixed keys) is
  modelled by a concrete deterministic 64-bit FNV-style hash: every claim
  about fingerprints depends only on the hash being a deterministic function
  of the bytes fed to it, never on the particular SipHash output.
* Wall-clock and monotonic-clock reads inside the source are passed in as
  explicit parameters (`now`, `clockNanos`, `nowSecs`).
-/

namespace VehicleNN

/-- Width of Rust's `u64`. -/
def U64MOD : ℕ := 2 ^ 64

/-- Model of `serde_json::Value`.  Objects are association lists of
`(key, value)`; the crate uses `serde_json`'s default `BTreeMap`-backed map,
so a value equal up to canonicalisation is equal as a `JsonValue`. -/
inductive JsonValue where
  | null : JsonValue
  | bool (b : Bool) : JsonValue
  | num (q : ℚ) : JsonValue
  | str (s : String) : JsonValue
  | arr (elems : List JsonValue) : JsonValue
  | obj (fields : List (String × JsonValue)) : JsonValue

namespace JsonValue

/-- `Value::as_str` — `Some` exactly on JSON strings. -/
def asStr : JsonValue → Option String
  | .str s => some s
  | _ => none

/-- `Value::as_f64` — `Some` exactly on JSON numbers. -/
def asF64 : JsonValue → Option ℚ
  | .num q => some q
  | _ => none

/-- `Value::as_object` — `Some` exactly on JSON objects. -/
def asObject : JsonValue → Option (List (String × JsonValue))
  | .obj fields => some fields
  | _ => none

/-- Rust's `value[key]` (the `Index<&str>` impl on `Value`): field lookup on
an object, `Null` on a missing key or a non-object. -/
def getField (v : JsonValue) (key : String) : JsonValue :=
  match v with
  | .obj fields => (fields.lookup key).getD .null
  | _ => .null

end JsonValue

mutual

/-- The `format!("{:?}", value)` debug stringification used by `get_hash`.
The precise glyphs are irrelevant to the claims (only that it is a
deterministic function of the value); the shape mirrors `serde_json`'s
`Debug` output. -/
def JsonValue.debugString : JsonValue → String
  | .null => "Null"
  | .bool b => "Bool(" ++ (if b then "true" else "false") ++ ")"
  | .num q => "Number(" ++ toString q ++ ")"
  | .str s => "String(" ++ s ++ ")"
  | .arr elems => "Array[" ++ JsonValue.debugStringList elems ++ "]"
  | .obj fields => "Object\x7b" ++ JsonValue.debugStringFields fields ++ "\x7d"

/-- Comma-separated debug strings of array elements. -/
def JsonValue.debugStringList : List JsonValue → String
  | [] => ""
  | [v] => JsonValue.debugString v
  | v :: rest => JsonValue.debugString v ++ ", " ++ JsonValue.debugStringList rest

/-- Comma-separated `key: value` debug strings of object fields. -/
def JsonValue.debugStringFields : List (String × JsonValue) → String
  | [] => ""
  | [(k, v)] => k ++ ": " ++ JsonValue.debugString v
  | (k, v) :: rest =>
      k ++ ": " ++ JsonValue.debugString v ++ ", " ++
        JsonValue.debugStringFields rest

end

/-- One step of the 64-bit combine used to model `DefaultHasher::write`:
an FNV-1a style fold, a stand-in for SipHash-1-3 (deterministic function of
the accumulated bytes, which is all the fingerprint claims use). -/
def hashStep (acc b : ℕ) : ℕ := ((acc ^^^ b) * 1099511628211) % U64MOD

/-- Absorb a natural number (one `Hash::hash` call of a `u64`). -/
def hashNat (acc n : ℕ) : ℕ := hashStep acc (n % U64MOD)

/-- Absorb a string (one `Hash::hash` call of a `str`): fold over its bytes,
then a length terminator as the real `Hash for str` writes `0xff`. -/
def hashString (acc : ℕ) (s : String) : ℕ :=
  hashStep (s.toUTF8.toList.foldl (fun a b => hashStep a b.toNat) acc) 255

/-- Rust's saturating float-to-integer cast `timestamp as u64`:
negative values (and NaN, unrepresentable in ℚ) go to 0, values at or above
`2^64` saturate, and positive values truncate toward zero. -/
def castF64ToU64 (q : ℚ) : ℕ :=
  if q < 0 then 0 else min (U64MOD - 1) q.floor.toNat

/-- 车辆消息结构 — `VehicleMessage` from `src/types.rs`.  `timestamp` is the
`f64` field, `params` the `HashMap<String, serde_json::Value>`. -/
structure VehicleMessage where
  service : String
  vin : String
  timestamp : ℚ
  params : List (String × JsonValue)
  channel : String
  run_scene : Option String

namespace VehicleMessage

/-- `VehicleMessage::new` from `src/types.rs`. -/
def new (service vin : String) (timestamp : ℚ) : VehicleMessage :=
  { service := service
    vin := vin
    timestamp := timestamp
    params := []
    channel := ""
    run_scene := none }

/-- `VehicleMessage::get_hash` from `src/types.rs` (lines 36–51): hash
`service`, `vin`, `timestamp as u64`, then — when present — the debug
string of `params["data"]`; finish. -/
def get_hash (m : VehicleMessage) : ℕ :=
  let h0 : ℕ := 14695981039346656037 % U64MOD
  let h1 := hashString h0 m.service
  let h2 := hashString h1 m.vin
  let h3 := hashNat h2 (castF64ToU64 m.timestamp)
  let h4 :=
    match m.params.lookup "data" with
    | some data => hashString h3 (JsonValue.debugString data)
    | none => h3
  h4

/-- `VehicleMessage::is_valid` from `src/types.rs` (lines 54–59). -/
def is_valid (m : VehicleMessage) : Bool :=
  !m.service.isEmpty && !m.vin.isEmpty && decide (0 < m.timestamp) &&
    (m.params.lookup "data").isSome

end VehicleMessage

/-- 消息优先级 — `MessagePriority` from `src/types.rs`. -/
inductive MessagePriority where
  | Critical : MessagePriority
  | Normal : MessagePriority
  | Background : MessagePriority
deriving DecidableEq, Repr

namespace MessagePriority

/-- `MessagePriority::from_service` from `src/types.rs` (lines 75–81). -/
def from_service (service : String) : MessagePriority :=
  if service = "tracking" ∨ service = "route" ∨ service = "error_info" then
    .Critical
  else if service = "traj" ∨ service = "moving_obj" ∨ service = "device" ∨
      service = "loc_stat" then
    .Background
  else
    .Normal

/-- `MessagePriority::queue_capacity` from `src/types.rs` (lines 84–90). -/
def queue_capacity : MessagePriority → ℕ
  | .Critical => 200
  | .Normal => 500
  | .Background => 100

end MessagePriority

/-- 处理统计信息 — `ProcessingStats` from `src/types.rs`.  `last_update`
is an `Option` of a monotonic-clock reading (nanoseconds). -/
structure ProcessingStats where
  messages_received : ℕ := 0
  messages_processed : ℕ := 0
  messages_dropped : ℕ := 0
  avg_processing_time_us : ℕ := 0
  queue_size : ℕ := 0
  last_update : Option ℕ := none
deriving DecidableEq, Repr

namespace ProcessingStats

/-- `ProcessingStats::new` from `src/types.rs` (lines 121–126): defaults with
`last_update = Some(Instant::now())`. -/
def new (now : ℕ) : ProcessingStats := { last_update := some now }

/-- `ProcessingStats::increment_received` from `src/types.rs`. -/
def increment_received (s : ProcessingStats) (now : ℕ) : ProcessingStats :=
  { s with messages_received := (s.messages_received + 1) % U64MOD
           last_update := some now }

/-- `ProcessingStats::increment_processed` from `src/types.rs`. -/
def increment_processed (s : ProcessingStats) (now : ℕ) : ProcessingStats :=
  { s with messages_processed := (s.messages_processed + 1) % U64MOD
           last_update := some now }

/-- `ProcessingStats::increment_dropped` from `src/types.rs`. -/
def increment_dropped (s : ProcessingStats) (now : ℕ) : ProcessingStats :=
  { s with messages_dropped := (s.messages_dropped + 1) % U64MOD
           last_update := some now }

/-- The pure core of `ProcessingStats::update_processing_time` from
`src/types.rs` (lines 147–160), on the new sample already converted to
microseconds: zero average re-initialises, otherwise the `u64` integer
update `(avg * 9 + new) / 10`. -/
def updateAvg (avg newTimeUs : ℕ) : ℕ :=
  if avg = 0 then newTimeUs % U64MOD
  else ((avg * 9 + newTimeUs) % U64MOD) / 10

/-- `ProcessingStats::update_processing_time` from `src/types.rs`: the
duration is given in nanoseconds, `duration.as_micros() as u64` truncates to
microseconds (mod `2^64`). -/
def update_processing_time (s : ProcessingStats) (durationNs now : ℕ) :
    ProcessingStats :=
  let newTimeUs := (durationNs / 1000) % U64MOD
  { s with avg_processing_time_us := updateAvg s.avg_processing_time_us newTimeUs
           last_update := some now }

/-- `ProcessingStats::get_drop_rate` from `src/types.rs` (lines 180–186). -/
def get_drop_rate (s : ProcessingStats) : ℚ :=
  if 0 < s.messages_received then
    (s.messages_dropped : ℚ) / (s.messages_received : ℚ)
  else 0

end ProcessingStats

/-- 采样配置 — `SamplingConfig` from `src/types.rs`: per-service rates
(`f32`, modelled as ℚ) as an association map. -/
structure SamplingConfig where
  rates : List (String × ℚ)
deriving DecidableEq, Repr

namespace SamplingConfig

/-- `SamplingConfig::default` from `src/types.rs` (lines 196–215). -/
def default : SamplingConfig :=
  { rates := [("tracking", 1), ("route", 1), ("error_info", 1), ("vcc", 1),
              ("uos_config", 1), ("traj", 1/10), ("moving_obj", 1/20),
              ("device", 1/5), ("loc_stat", 3/10)] }

/-- `SamplingConfig::get_rate` from `src/types.rs` (lines 219–221):
configured rate, defaulting to 1.0 for an unlisted service. -/
def get_rate (c : SamplingConfig) (service : String) : ℚ :=
  (c.rates.lookup service).getD 1

/-- Insert-or-replace on the association map, as `HashMap::insert`. -/
def insertRate (rates : List (String × ℚ)) (service : String) (rate : ℚ) :
    List (String × ℚ) :=
  (service, rate) :: rates.filter (fun kv => kv.1 ≠ service)

/-- `SamplingConfig::set_rate` from `src/types.rs` (lines 224–227):
`rate.clamp(0.0, 1.0)` then insert.  (`f32::clamp` on a finite rate is
`min 1 (max 0 rate)`.) -/
def set_rate (c : SamplingConfig) (service : String) (rate : ℚ) :
    SamplingConfig :=
  { rates := insertRate c.rates service (min 1 (max 0 rate)) }

/-- `SamplingConfig::should_process` from `src/types.rs` (lines 230–251).
The source hashes `(service, current wall-clock nanoseconds)` with
`DefaultHasher`; the hasher here is the same deterministic model used by
`get_hash`, with the clock reading passed in as `clockNanos`. -/
def should_process (c : SamplingConfig) (service : String) (clockNanos : ℕ) :
    Bool :=
  let rate := c.get_rate service
  if 1 ≤ rate then true
  else
    let h := hashNat (hashString (14695981039346656037 % U64MOD) service)
      clockNanos
    let randomVal : ℚ := ((h % 1000 : ℕ) : ℚ) / 1000
    decide (randomVal < rate)

end SamplingConfig

/-- 车辆消息处理相关错误类型 — `VehicleError` from `src/error.rs`.
Error payloads that are foreign types (`serde_json::Error`, `io::Error`) are
modelled by their display strings. -/
inductive VehicleError where
  | JsonError (msg : String) : VehicleError
  | IoError (msg : String) : VehicleError
  | QueueFull : VehicleError
  | InvalidMessage (msg : String) : VehicleError
  | NanomsgError (msg : String) : VehicleError
  | Timeout : VehicleError
  | ServiceNotFound (msg : String) : VehicleError
  | ConfigError (msg : String) : VehicleError
deriving DecidableEq, Repr

namespace VehicleError

/-- `VehicleError::is_recoverable` from `src/error.rs` (lines 36–42):
`matches!(self, QueueFull | Timeout | NanomsgError(_))`. -/
def is_recoverable : VehicleError → Bool
  | .QueueFull => true
  | .Timeout => true
  | .NanomsgError _ => true
  | _ => false

end VehicleError

/-- A byte frame as `submit_message` sees it after `serde_json::from_slice`:
either malformed (the parser fails) or a well-formed JSON value.  The JSON
grammar itself is external (`serde_json`); the claims only distinguish
parse failure from the parsed value. -/
inductive Frame where
  | malformed : Frame
  | wellFormed (v : JsonValue) : Frame

/-- Field extraction of `submit_message` (`src/message_processor.rs`
lines 153–186): required `service` (string) and `params` (object) are read
off the `Value` with the `Value` index operator (`Null` on a missing key)
followed by `as_str`/`as_object`, failing with `InvalidMessage`.  `vin` and
`timestamp`, however, are read with `params["vin"]` / `params["timestamp"]`
where `params` is the extracted `serde_json::Map` — the **`Map` index
operator panics on a missing key** (only `Value` indexing yields `Null`),
modelled here as `none`; the `"UNKNOWN"` / wall-clock-seconds defaults
apply only when the key is present with the wrong type (`as_str` /
`as_f64` returning `None`).  The built message's `params` receives only
the `data` field; `channel := service`; optional `run_scene` string. -/
def extractMessage (v : JsonValue) (nowSecs : ℚ) :
    Option (Except VehicleError VehicleMessage) :=
  match (v.getField "service").asStr with
  | none => some (.error (.InvalidMessage "Missing service field"))
  | some service =>
    match (v.getField "params").asObject with
    | none => some (.error (.InvalidMessage "Missing params field"))
    | some params =>
      match params.lookup "vin" with
      | none => none
      | some vinVal =>
        match params.lookup "timestamp" with
        | none => none
        | some tsVal =>
          let vin := (vinVal.asStr).getD "UNKNOWN"
          let timestamp := (tsVal.asF64).getD nowSecs
          let base := VehicleMessage.new service vin timestamp
          let withData :=
            match params.lookup "data" with
            | some d => { base with params := [("data", d)] }
            | none => base
          some (.ok { withData with
                channel := service
                run_scene :=
                  (params.lookup "run_scene").bind JsonValue.asStr })

/-- Insert-or-replace into the dedup cache (`DashMap::insert`). -/
def cacheInsert (cache : List (ℕ × ℕ)) (h now : ℕ) : List (ℕ × ℕ) :=
  (h, now) :: cache.filter (fun kv => kv.1 ≠ h)

/-- `MessageProcessor::is_duplicate_message` (`src/message_processor.rs`
lines 250–263): duplicate iff the hash was seen less than 1 s
(10⁹ ns of the monotonic clock) ago; otherwise the entry is
inserted/updated with `now`.  Returns the verdict and the updated cache. -/
def is_duplicate_message (cache : List (ℕ × ℕ)) (h now : ℕ) :
    Bool × List (ℕ × ℕ) :=
  match cache.lookup h with
  | some lastSeen =>
      if now - lastSeen < 1000000000 then (true, cache)
      else (false, cacheInsert cache h now)
  | none => (false, cacheInsert cache h now)

/-- A bounded `tokio::mpsc` channel as seen from the sender side: the
buffered messages and whether the channel is closed (its receiver
dropped).  `MessageProcessor::new` drops all three receivers on the spot
(`let (critical_tx, _) = mpsc::channel(...)`), so the channels a fresh
processor holds are closed. -/
structure Channel where
  buffer : List VehicleMessage
  closed : Bool

/-- `Sender::try_send`: fails on a closed channel (`TrySendError::Closed`)
or a full one (`TrySendError::Full`) — `submit_message` maps either error
to `QueueFull` — and otherwise appends the message. -/
def trySend (ch : Channel) (cap : ℕ) (m : VehicleMessage) : Option Channel :=
  if ch.closed then none
  else if ch.buffer.length < cap then
    some { ch with buffer := ch.buffer ++ [m] }
  else none

/-- The coordinator state touched by `submit_message`: dedup cache, sampling
config, the statistics behind the `PerformanceMonitor`, the log of drop
reasons (each `record_dropped(reason)` emits its reason to the log), and the
three bounded priority channels. -/
structure ProcState where
  message_cache : List (ℕ × ℕ)
  sampling_config : SamplingConfig
  stats : ProcessingStats
  dropLog : List String
  criticalQ : Channel
  normalQ : Channel
  backgroundQ : Channel

/-- `PerformanceMonitor::record_dropped` (`src/performance.rs` lines 54–59):
increment the dropped counter and emit the reason. -/
def recordDropped (st : ProcState) (reason : String) (now : ℕ) : ProcState :=
  { st with stats := st.stats.increment_dropped now
            dropLog := st.dropLog ++ [reason] }

/-- `PerformanceMonitor::record_received` (`src/performance.rs`
lines 30–36). -/
def recordReceived (st : ProcState) (now : ℕ) : ProcState :=
  { st with stats := st.stats.increment_received now }

/-- `MessageProcessor::submit_message` (`src/message_processor.rs`
lines 146–247).  Clock reads are explicit: `now` is the monotonic clock
(ns) used for dedup and stats timestamps, `clockNanos` the wall clock read
inside `should_process`, `nowSecs` the wall-clock seconds used as the
default timestamp.  Mirrors the source's order: parse, extract (which can
panic on a `params` object missing `vin` or `timestamp` — the `none`
result), validate (drop + error), dedup (drop + ok), sampling (drop + ok),
classify, `try_send` (enqueue + received, or — on a full **or closed**
channel — drop "queue full" + ok). -/
def submit_message (st : ProcState) (frame : Frame) (now clockNanos : ℕ)
    (nowSecs : ℚ) : Option (Except VehicleError Unit × ProcState) :=
  match frame with
  | .malformed => some (.error (.JsonError "JSON parsing error"), st)
  | .wellFormed v =>
    match extractMessage v nowSecs with
    | none => none
    | some (.error e) => some (.error e, st)
    | some (.ok message) =>
      if ¬ message.is_valid then
        some (.error (.InvalidMessage "Message validation failed"),
          recordDropped st "invalid message" now)
      else
        let messageHash := message.get_hash
        let dup := is_duplicate_message st.message_cache messageHash now
        let st1 := { st with message_cache := dup.2 }
        if dup.1 then
          some (.ok (), recordDropped st1 "duplicate message" now)
        else if ¬ st1.sampling_config.should_process message.service clockNanos
            then
          some (.ok (), recordDropped st1 "sampling" now)
        else
          match MessagePriority.from_service message.service with
          | .Critical =>
              match trySend st1.criticalQ
                  MessagePriority.Critical.queue_capacity message with
              | some ch =>
                  some (.ok (), recordReceived { st1 with criticalQ := ch }
                    now)
              | none => some (.ok (), recordDropped st1 "queue full" now)
          | .Normal =>
              match trySend st1.normalQ
                  MessagePriority.Normal.queue_capacity message with
              | some ch =>
                  some (.ok (), recordReceived { st1 with normalQ := ch }
                    now)
              | none => some (.ok (), recordDropped st1 "queue full" now)
          | .Background =>
              match trySend st1.backgroundQ
                  MessagePriority.Background.queue_capacity message with
              | some ch =>
                  some (.ok (), recordReceived { st1 with backgroundQ := ch }
                    now)
              | none => some (.ok (), recordDropped st1 "queue full" now)

/-- The fresh coordinator state of `MessageProcessor::new`: empty cache,
default sampling config, fresh stats — and three **closed** channels,
because `new()` drops every receiver immediately
(`let (critical_tx, _) = mpsc::channel(...)`, lines 46–48); `start()`
rewires only a local clone, never `self`'s senders, so submissions on a
processor built by `new()` can never enqueue. -/
def ProcState.new (now : ℕ) : ProcState :=
  { message_cache := []
    sampling_config := SamplingConfig.default
    stats := ProcessingStats.new now
    dropLog := []
    criticalQ := { buffer := [], closed := true }
    normalQ := { buffer := [], closed := true }
    backgroundQ := { buffer := [], closed := true } }

/-- The state after `is_duplicate_message` has refreshed the dedup cache
for a message hash (the cache side effect of line 261 of
`src/message_processor.rs`). -/
def cacheUpdated (st : ProcState) (h now : ℕ) : ProcState :=
  { st with message_cache := (is_duplicate_message st.message_cache h now).2 }

/-- `trySend` succeeds exactly by appending to an open, non-full buffer. -/
lemma trySend_some {ch : Channel} {cap : ℕ} {m : VehicleMessage}
    {ch' : Channel} (h : trySend ch cap m = some ch') :
    ch.closed = false ∧ ch.buffer.length < cap ∧
      ch' = { ch with buffer := ch.buffer ++ [m] } := by
  unfold trySend at h
  split at h
  · cases h
  · rename_i h1
    split at h
    · rename_i h2
      injection h with h'
      exact ⟨by simpa using h1, h2, h'.symm⟩
    · cases h

/-- Exhaustive case analysis of `submit_message` on a well-formed frame:
the extraction panics (missing `vin`/`timestamp` key) and so does the
call; or extraction fails and the state is untouched; or the record is
invalid and the call errors while recording a drop; or the record is
valid, the dedup cache is updated, and exactly one of {duplicate drop,
sampling drop, queue-full drop (full or closed channel), enqueue to the
matching priority channel with a reception} happens. -/
lemma submit_cases (st : ProcState) (v : JsonValue) (now clockNanos : ℕ)
    (nowSecs : ℚ) :
    (extractMessage v nowSecs = none ∧
      submit_message st (.wellFormed v) now clockNanos nowSecs = none) ∨
    (∃ e, extractMessage v nowSecs = some (.error e) ∧
      submit_message st (.wellFormed v) now clockNanos nowSecs =
        some (.error e, st)) ∨
    (∃ m, extractMessage v nowSecs = some (.ok m) ∧ m.is_valid = false ∧
      submit_message st (.wellFormed v) now clockNanos nowSecs =
        some (.error (.InvalidMessage "Message validation failed"),
          recordDropped st "invalid message" now)) ∨
    (∃ m, extractMessage v nowSecs = some (.ok m) ∧ m.is_valid = true ∧
      (submit_message st (.wellFormed v) now clockNanos nowSecs =
          some (.ok (), recordDropped (cacheUpdated st m.get_hash now)
            "duplicate message" now) ∨
      submit_message st (.wellFormed v) now clockNanos nowSecs =
          some (.ok (), recordDropped (cacheUpdated st m.get_hash now)
            "sampling" now) ∨
      submit_message st (.wellFormed v) now clockNanos nowSecs =
          some (.ok (), recordDropped (cacheUpdated st m.get_hash now)
            "queue full" now) ∨
      (∃ ch, trySend st.criticalQ MessagePriority.Critical.queue_capacity m =
          some ch ∧
        submit_message st (.wellFormed v) now clockNanos nowSecs =
          some (.ok (), recordReceived { cacheUpdated st m.get_hash now with
            criticalQ := ch } now)) ∨
      (∃ ch, trySend st.normalQ MessagePriority.Normal.queue_capacity m =
          some ch ∧
        submit_message st (.wellFormed v) now clockNanos nowSecs =
          some (.ok (), recordReceived { cacheUpdated st m.get_hash now with
            normalQ := ch } now)) ∨
      (∃ ch, trySend st.backgroundQ
          MessagePriority.Background.queue_capacity m = some ch ∧
        submit_message st (.wellFormed v) now clockNanos nowSecs =
          some (.ok (), recordReceived { cacheUpdated st m.get_hash now with
            backgroundQ := ch } now)))) := by
  cases hext : extractMessage v nowSecs with
  | none =>
    refine Or.inl ⟨rfl, ?_⟩
    simp only [submit_message, hext]
  | some res =>
    cases res with
    | error e =>
      refine Or.inr (Or.inl ⟨e, rfl, ?_⟩)
      simp only [submit_message, hext]
    | ok m =>
      by_cases hval : m.is_valid = true
      · refine Or.inr (Or.inr (Or.inr ⟨m, rfl, hval, ?_⟩))
        simp only [submit_message, hext, hval]
        by_cases hdup :
            (is_duplicate_message st.message_cache m.get_hash now).1 = true
        · rw [if_neg (by simp), if_pos hdup]
          exact Or.inl rfl
        · rw [if_neg (by simp), if_neg hdup]
          by_cases hsamp :
              st.sampling_config.should_process m.service clockNanos = true
          · rw [if_neg (by simp [hsamp])]
            cases hpri : MessagePriority.from_service m.service with
            | Critical =>
              cases hq : trySend st.criticalQ
                  MessagePriority.Critical.queue_capacity m with
              | some ch =>
                exact Or.inr (Or.inr (Or.inr (Or.inl ⟨ch, rfl, rfl⟩)))
              | none =>
                exact Or.inr (Or.inr (Or.inl rfl))
            | Normal =>
              cases hq : trySend st.normalQ
                  MessagePriority.Normal.queue_capacity m with
              | some ch =>
                exact Or.inr (Or.inr (Or.inr (Or.inr (Or.inl
                  ⟨ch, rfl, rfl⟩))))
              | none =>
                exact Or.inr (Or.inr (Or.inl rfl))
            | Background =>
              cases hq : trySend st.backgroundQ
                  MessagePriority.Background.queue_capacity m with
              | some ch =>
                exact Or.inr (Or.inr (Or.inr (Or.inr (Or.inr
                  ⟨ch, rfl, rfl⟩))))
              | none =>
                exact Or.inr (Or.inr (Or.inl rfl))
          · rw [if_pos (by simp [hsamp])]
            exact Or.inr (Or.inl rfl)
      · simp only [Bool.not_eq_true] at hval
        refine Or.inr (Or.inr (Or.inl ⟨m, rfl, hval, ?_⟩))
        simp only [submit_message, hext, hval]
        rw [if_pos (by simp)]

/-- The only extraction errors are `InvalidMessage` values (missing
`service` or missing `params`); a missing `vin`/`timestamp` key is a
panic (`none`), not an error. -/
lemma extract_error_shape (v : JsonValue) (nowSecs : ℚ) (e : VehicleError)
    (h : extractMessage v nowSecs = some (.error e)) :
    ∃ s, e = .InvalidMessage s := by
  unfold extractMessage at h
  cases hs : (v.getField "service").asStr with
  | none =>
    rw [hs] at h
    injection h with h'
    injection h' with h''
    exact ⟨_, h''.symm⟩
  | some sv =>
    rw [hs] at h
    cases hp : (v.getField "params").asObject with
    | none =>
      rw [hp] at h
      injection h with h'
      injection h' with h''
      exact ⟨_, h''.symm⟩
    | some fields =>
      rw [hp] at h
      dsimp only at h
      cases hvin : fields.lookup "vin" with
      | none => rw [hvin] at h; cases h
      | some vinVal =>
        rw [hvin] at h
        dsimp only at h
        cases hts : fields.lookup "timestamp" with
        | none => rw [hts] at h; cases h
        | some tsVal =>
          rw [hts] at h
          dsimp only at h
          injection h with h'
          cases h'

/-- An extracted message's `params` is the singleton `data` binding when the
input `params` object has a `data` field, and empty otherwise. -/
lemma extract_ok_shape (v : JsonValue) (nowSecs : ℚ) (m : VehicleMessage)
    (h : extractMessage v nowSecs = some (.ok m)) :
    ∃ fields, (v.getField "params").asObject = some fields ∧
      ((∃ d, fields.lookup "data" = some d ∧ m.params = [("data", d)]) ∨
       (fields.lookup "data" = none ∧ m.params = [])) := by
  unfold extractMessage at h
  cases hs : (v.getField "service").asStr with
  | none => rw [hs] at h; injection h with h'; cases h'
  | some sv =>
    rw [hs] at h
    cases hp : (v.getField "params").asObject with
    | none => rw [hp] at h; injection h with h'; cases h'
    | some fields =>
      rw [hp] at h
      dsimp only at h
      refine ⟨fields, rfl, ?_⟩
      cases hvin : fields.lookup "vin" with
      | none => rw [hvin] at h; cases h
      | some vinVal =>
        rw [hvin] at h
        dsimp only at h
        cases hts : fields.lookup "timestamp" with
        | none => rw [hts] at h; cases h
        | some tsVal =>
          rw [hts] at h
          dsimp only at h
          cases hd : fields.lookup "data" with
          | some d =>
            rw [hd] at h
            dsimp only at h
            injection h with h'
            injection h' with h''
            subst h''
            exact Or.inl ⟨d, rfl, rfl⟩
          | none =>
            rw [hd] at h
            dsimp only at h
            injection h with h'
            injection h' with h''
            subst h''
            exact Or.inr ⟨rfl, rfl⟩

/-- A `u64` counter increment is always observable: `(n + 1) % 2^64 ≠ n`. -/
lemma succ_mod_ne (n : ℕ) : (n + 1) % U64MOD ≠ n := by
  have h : U64MOD = 18446744073709551616 := by norm_num [U64MOD]
  rw [h]
  omega

/-- Exactly one of four alternatives holds. -/
def ExactlyOne (a b c d : Prop) : Prop :=
  (a ∧ ¬b ∧ ¬c ∧ ¬d) ∨ (¬a ∧ b ∧ ¬c ∧ ¬d) ∨
  (¬a ∧ ¬b ∧ c ∧ ¬d) ∨ (¬a ∧ ¬b ∧ ¬c ∧ d)

/-! ## Claims -/

/-- **C1 counterexample.** The frame
`{"service":"tracking","params":{"vin":"V1","timestamp":-1,"data":{}}}`
parses, has both required fields (and the `vin`/`timestamp` keys, so the
map indexing does not panic), and assembles to a record that fails
`is_valid` (timestamp ≤ 0); the claim says `submit_message` then returns
success, but the source (`src/message_processor.rs` lines 188–192) returns
`Err(InvalidMessage)` after recording the drop. -/
theorem C1_counterexample :
    extractMessage (.obj [("service", .str "tracking"),
      ("params", .obj [("vin", .str "V1"), ("timestamp", .num (-1)),
        ("data", .obj [])])]) 0 =
      some (.ok
        { service := "tracking", vin := "V1", timestamp := -1,
          params := [("data", .obj [])], channel := "tracking",
          run_scene := none }) ∧
    VehicleMessage.is_valid
      { service := "tracking", vin := "V1", timestamp := -1,
        params := [("data", .obj [])], channel := "tracking",
        run_scene := none } = false ∧
    (submit_message (ProcState.new 0)
      (.wellFormed (.obj [("service", .str "tracking"),
        ("params", .obj [("vin", .str "V1"), ("timestamp", .num (-1)),
          ("data", .obj [])])]))
      0 0 0).map Prod.fst =
      some (.error (.InvalidMessage "Message validation failed")) :=
  ⟨rfl, rfl, rfl⟩

/-- **C1 (amended).** For every parseable frame with the required fields
whose `params` object carries `vin` and `timestamp` keys (a missing key
makes the source panic at the `Map` indexing before any counter moves) and
whose assembled record fails the validity predicate, `submit_message`
increments the dropped counter with reason `"invalid message"` and returns
an `InvalidMessage` **error** (not success); among the executions that
return, malformed JSON, a missing `service` or `params` field, and a failed
validity check are the only inputs for which `submit_message` returns an
error. -/
theorem C1_amended (st : ProcState) (frame : Frame) (now clockNanos : ℕ)
    (nowSecs : ℚ) :
    (∀ v m, frame = .wellFormed v →
      extractMessage v nowSecs = some (.ok m) → m.is_valid = false →
      submit_message st frame now clockNanos nowSecs =
        some (.error (.InvalidMessage "Message validation failed"),
          recordDropped st "invalid message" now) ∧
      (submit_message st frame now clockNanos nowSecs).map
          (fun pr => pr.2.stats.messages_dropped) =
        some ((st.stats.messages_dropped + 1) % U64MOD) ∧
      (submit_message st frame now clockNanos nowSecs).map
          (fun pr => pr.2.dropLog) =
        some (st.dropLog ++ ["invalid message"])) ∧
    ((∃ e, (submit_message st frame now clockNanos nowSecs).map Prod.fst =
        some (.error e)) ↔
      (frame = .malformed ∨
        ∃ v, frame = .wellFormed v ∧
          ((∃ e, extractMessage v nowSecs = some (.error e)) ∨
           (∃ m, extractMessage v nowSecs = some (.ok m) ∧
             m.is_valid = false)))) := by
  cases frame with
  | malformed =>
    refine ⟨?_, ?_⟩
    · intro v m h
      cases h
    · constructor
      · intro _
        exact Or.inl rfl
      · intro _
        exact ⟨.JsonError "JSON parsing error", rfl⟩
  | wellFormed v =>
    rcases submit_cases st v now clockNanos nowSecs with
      ⟨hnone, hsub⟩ | ⟨e, hext, hsub⟩ | ⟨m, hext, hval, hsub⟩ |
      ⟨m, hext, hval, hcases⟩
    · refine ⟨?_, ?_⟩
      · intro v' m' hv hext' hval'
        injection hv with hv'
        subst hv'
        rw [hext'] at hnone
        cases hnone
      · rw [hsub]
        constructor
        · rintro ⟨e, he⟩
          cases he
        · rintro (hmal | ⟨v', hv', hrest⟩)
          · cases hmal
          · injection hv' with hv''
            subst hv''
            rcases hrest with ⟨e, he⟩ | ⟨m', hm', hval'⟩
            · rw [hnone] at he
              cases he
            · rw [hnone] at hm'
              cases hm'
    · refine ⟨?_, ?_⟩
      · intro v' m' hv hext' hval'
        injection hv with hv'
        subst hv'
        rw [hext] at hext'
        injection hext' with h'
        cases h'
      · rw [hsub]
        constructor
        · intro _
          exact Or.inr ⟨v, rfl, Or.inl ⟨e, hext⟩⟩
        · intro _
          exact ⟨e, rfl⟩
    · refine ⟨?_, ?_⟩
      · intro v' m' hv hext' hval'
        injection hv with hv'
        subst hv'
        rw [hext] at hext'
        injection hext' with h'
        injection h' with h''
        subst h''
        refine ⟨hsub, ?_, ?_⟩
        · rw [hsub]
          rfl
        · rw [hsub]
          rfl
      · rw [hsub]
        constructor
        · intro _
          exact Or.inr ⟨v, rfl, Or.inr ⟨m, hext, hval⟩⟩
        · intro _
          exact ⟨.InvalidMessage "Message validation failed", rfl⟩
    · have hok : (submit_message st (.wellFormed v) now clockNanos
          nowSecs).map Prod.fst = some (.ok ()) := by
        rcases hcases with h | h | h | ⟨ch, hc, h⟩ | ⟨ch, hc, h⟩ |
          ⟨ch, hc, h⟩ <;> rw [h] <;> rfl
      refine ⟨?_, ?_⟩
      · intro v' m' hv hext' hval'
        injection hv with hv'
        subst hv'
        rw [hext] at hext'
        injection hext' with h'
        injection h' with h''
        subst h''
        rw [hval'] at hval
        cases hval
      · constructor
        · rintro ⟨e, he⟩
          rw [hok] at he
          simp at he
        · rintro (hmal | ⟨v', hv', hrest⟩)
          · cases hmal
          · injection hv' with hv''
            subst hv''
            rcases hrest with ⟨e, he⟩ | ⟨m', hm', hval'⟩
            · rw [hext] at he
              simp at he
            · rw [hext] at hm'
              injection hm' with h'
              injection h' with h''
              subst h''
              rw [hval] at hval'
              cases hval'

/-- **C1 witness.** The amended behaviour at the concrete invalid frame
`{"service":"tracking","params":{"vin":"V1","timestamp":-1,"data":{}}}`
from a fresh coordinator: an `InvalidMessage` error is returned and the
drop log gains `"invalid message"`. -/
theorem C1_witness :
    submit_message (ProcState.new 0)
      (.wellFormed (.obj [("service", .str "tracking"),
        ("params", .obj [("vin", .str "V1"), ("timestamp", .num (-1)),
          ("data", .obj [])])]))
      0 0 0 =
      some (.error (.InvalidMessage "Message validation failed"),
        recordDropped (ProcState.new 0) "invalid message" 0) ∧
    (submit_message (ProcState.new 0)
      (.wellFormed (.obj [("service", .str "tracking"),
        ("params", .obj [("vin", .str "V1"), ("timestamp", .num (-1)),
          ("data", .obj [])])]))
      0 0 0).map (fun pr => pr.2.dropLog) = some ["invalid message"] := by
  have h := (C1_amended (ProcState.new 0)
    (.wellFormed (.obj [("service", .str "tracking"),
      ("params", .obj [("vin", .str "V1"), ("timestamp", .num (-1)),
        ("data", .obj [])])]))
    0 0 0).1
    (.obj [("service", .str "tracking"),
      ("params", .obj [("vin", .str "V1"), ("timestamp", .num (-1)),
        ("data", .obj [])])])
    { service := "tracking", vin := "V1", timestamp := -1,
      params := [("data", .obj [])], channel := "tracking",
      run_scene := none }
    rfl rfl rfl
  exact ⟨h.1, h.2.2⟩

/-- **C2 counterexample.** Two failures of the exactly-one invariant.
First, for the parseable-but-invalid frame
`{"service":"tracking","params":{"vin":"V1","timestamp":-1,"data":{}}}`,
two of the four outcomes happen at once: a shape error (`InvalidMessage`)
is returned **and** the dropped counter is incremented (0 → 1).  Second,
for `{"service":"tracking","params":{"timestamp":-1,"data":{}}}` — which
parses and has both required fields — the `Map` indexing `params["vin"]`
panics (the call does not return), so **none** of the four outcomes
occurs. -/
theorem C2_counterexample :
    (submit_message (ProcState.new 0)
      (.wellFormed (.obj [("service", .str "tracking"),
        ("params", .obj [("vin", .str "V1"), ("timestamp", .num (-1)),
          ("data", .obj [])])]))
      0 0 0).map Prod.fst =
      some (.error (.InvalidMessage "Message validation failed")) ∧
    (submit_message (ProcState.new 0)
      (.wellFormed (.obj [("service", .str "tracking"),
        ("params", .obj [("vin", .str "V1"), ("timestamp", .num (-1)),
          ("data", .obj [])])]))
      0 0 0).map (fun pr => pr.2.stats.messages_dropped) = some 1 ∧
    (ProcState.new 0).stats.messages_dropped = 0 ∧
    ((JsonValue.obj [("service", .str "tracking"),
      ("params", .obj [("timestamp", .num (-1)),
        ("data", .obj [])])]).getField "service").asStr = some "tracking" ∧
    ((JsonValue.obj [("service", .str "tracking"),
      ("params", .obj [("timestamp", .num (-1)),
        ("data", .obj [])])]).getField "params").asObject =
      some [("timestamp", .num (-1)), ("data", .obj [])] ∧
    submit_message (ProcState.new 0)
      (.wellFormed (.obj [("service", .str "tracking"),
        ("params", .obj [("timestamp", .num (-1)), ("data", .obj [])])]))
      0 0 0 = none :=
  ⟨rfl, rfl, rfl, rfl, rfl, rfl⟩

/-- **C2 (amended).** For every submitted frame on which `submit_message`
returns, exactly one of {parse error returned, shape error returned,
`messages_received` incremented, `messages_dropped` incremented} happens —
**except** for parseable frames with both required fields whose record
fails validation, where two happen together: a shape error is returned and
`messages_dropped` is incremented.  When the call panics (a parseable
frame whose `params` object lacks a `vin` or `timestamp` key), none of the
four outcomes occurs. -/
theorem C2_amended (st : ProcState) (frame : Frame) (now clockNanos : ℕ)
    (nowSecs : ℚ) :
    ((∃ v m, frame = .wellFormed v ∧
        extractMessage v nowSecs = some (.ok m) ∧ m.is_valid = false) →
      (∃ s, (submit_message st frame now clockNanos nowSecs).map Prod.fst =
        some (.error (.InvalidMessage s))) ∧
      (submit_message st frame now clockNanos nowSecs).map
          (fun pr => pr.2.stats.messages_dropped) =
        some ((st.stats.messages_dropped + 1) % U64MOD) ∧
      ¬ (∃ s, (submit_message st frame now clockNanos nowSecs).map Prod.fst
        = some (.error (.JsonError s))) ∧
      (submit_message st frame now clockNanos nowSecs).map
          (fun pr => pr.2.stats.messages_received) =
        some st.stats.messages_received) ∧
    (submit_message st frame now clockNanos nowSecs = none →
      ¬ (∃ s, (submit_message st frame now clockNanos nowSecs).map Prod.fst
        = some (.error (.JsonError s))) ∧
      ¬ (∃ s, (submit_message st frame now clockNanos nowSecs).map Prod.fst
        = some (.error (.InvalidMessage s))) ∧
      ¬ ((submit_message st frame now clockNanos nowSecs).map
          (fun pr => pr.2.stats.messages_received) =
        some ((st.stats.messages_received + 1) % U64MOD)) ∧
      ¬ ((submit_message st frame now clockNanos nowSecs).map
          (fun pr => pr.2.stats.messages_dropped) =
        some ((st.stats.messages_dropped + 1) % U64MOD))) ∧
    (submit_message st frame now clockNanos nowSecs ≠ none →
      ¬ (∃ v m, frame = .wellFormed v ∧
          extractMessage v nowSecs = some (.ok m) ∧ m.is_valid = false) →
      ExactlyOne
        (∃ s, (submit_message st frame now clockNanos nowSecs).map Prod.fst
          = some (.error (.JsonError s)))
        (∃ s, (submit_message st frame now clockNanos nowSecs).map Prod.fst
          = some (.error (.InvalidMessage s)))
        ((submit_message st frame now clockNanos nowSecs).map
            (fun pr => pr.2.stats.messages_received) =
          some ((st.stats.messages_received + 1) % U64MOD))
        ((submit_message st frame now clockNanos nowSecs).map
            (fun pr => pr.2.stats.messages_dropped) =
          some ((st.stats.messages_dropped + 1) % U64MOD))) := by
  refine ⟨?_, ?_, ?_⟩
  · rintro ⟨v, m, hfr, hext, hval⟩
    subst hfr
    rcases submit_cases st v now clockNanos nowSecs with
      ⟨hnone, hsub⟩ | ⟨e, hext', hsub⟩ | ⟨m', hext', hval', hsub⟩ |
      ⟨m', hext', hval', hcases⟩
    · rw [hext] at hnone
      cases hnone
    · rw [hext] at hext'
      injection hext' with h'
      cases h'
    · rw [hsub]
      refine ⟨⟨_, rfl⟩, rfl, ?_, rfl⟩
      rintro ⟨s, hs⟩
      simp at hs
    · rw [hext] at hext'
      injection hext' with h'
      injection h' with h''
      subst h''
      rw [hval] at hval'
      cases hval'
  · intro hnone
    refine ⟨?_, ?_, ?_, ?_⟩
    · rintro ⟨s, hs⟩
      rw [hnone] at hs
      cases hs
    · rintro ⟨s, hs⟩
      rw [hnone] at hs
      cases hs
    · intro hh
      rw [hnone] at hh
      cases hh
    · intro hh
      rw [hnone] at hh
      cases hh
  · intro hsome hninv
    cases frame with
    | malformed =>
      refine Or.inl ⟨⟨"JSON parsing error", rfl⟩, ?_, ?_, ?_⟩
      · rintro ⟨s, hs⟩
        simp [submit_message] at hs
      · intro hh
        exact succ_mod_ne _ (Option.some.inj hh).symm
      · intro hh
        exact succ_mod_ne _ (Option.some.inj hh).symm
    | wellFormed v =>
      rcases submit_cases st v now clockNanos nowSecs with
        ⟨hnone, hsub⟩ | ⟨e, hext, hsub⟩ | ⟨m, hext, hval, hsub⟩ |
        ⟨m, hext, hval, hcases⟩
      · exact absurd hsub hsome
      · obtain ⟨s, rfl⟩ := extract_error_shape v nowSecs e hext
        rw [hsub]
        refine Or.inr (Or.inl ⟨?_, ⟨s, rfl⟩, ?_, ?_⟩)
        · rintro ⟨s', hs'⟩
          simp at hs'
        · intro hh
          exact succ_mod_ne _ (Option.some.inj hh).symm
        · intro hh
          exact succ_mod_ne _ (Option.some.inj hh).symm
      · exact absurd ⟨v, m, rfl, hext, hval⟩ hninv
      · rcases hcases with h | h | h | ⟨ch, hc, h⟩ | ⟨ch, hc, h⟩ |
          ⟨ch, hc, h⟩
        · rw [h]
          refine Or.inr (Or.inr (Or.inr ⟨?_, ?_, ?_, rfl⟩))
          · rintro ⟨s, hs⟩
            simp at hs
          · rintro ⟨s, hs⟩
            simp at hs
          · intro hh
            exact succ_mod_ne _ (Option.some.inj hh).symm
        · rw [h]
          refine Or.inr (Or.inr (Or.inr ⟨?_, ?_, ?_, rfl⟩))
          · rintro ⟨s, hs⟩
            simp at hs
          · rintro ⟨s, hs⟩
            simp at hs
          · intro hh
            exact succ_mod_ne _ (Option.some.inj hh).symm
        · rw [h]
          refine Or.inr (Or.inr (Or.inr ⟨?_, ?_, ?_, rfl⟩))
          · rintro ⟨s, hs⟩
            simp at hs
          · rintro ⟨s, hs⟩
            simp at hs
          · intro hh
            exact succ_mod_ne _ (Option.some.inj hh).symm
        · rw [h]
          refine Or.inr (Or.inr (Or.inl ⟨?_, ?_, rfl, ?_⟩))
          · rintro ⟨s, hs⟩
            simp at hs
          · rintro ⟨s, hs⟩
            simp at hs
          · intro hh
            exact succ_mod_ne _ (Option.some.inj hh).symm
        · rw [h]
          refine Or.inr (Or.inr (Or.inl ⟨?_, ?_, rfl, ?_⟩))
          · rintro ⟨s, hs⟩
            simp at hs
          · rintro ⟨s, hs⟩
            simp at hs
          · intro hh
            exact succ_mod_ne _ (Option.some.inj hh).symm
        · rw [h]
          refine Or.inr (Or.inr (Or.inl ⟨?_, ?_, rfl, ?_⟩))
          · rintro ⟨s, hs⟩
            simp at hs
          · rintro ⟨s, hs⟩
            simp at hs
          · intro hh
            exact succ_mod_ne _ (Option.some.inj hh).symm

/-- **C5 counterexample.** Submitting the valid frame
`{"service":"tracking","params":{"vin":"V1","timestamp":1700000000,
"data":{"x":1},"extra":2}}` refutes the pass-through claim twice over.
From a fresh coordinator (whose `new()` dropped every receiver, closing
the channels), the frame is *not* enqueued at all: `try_send` fails on the
closed channel and the frame is counted as a `"queue full"` drop, so
nothing reaches the handler.  And at a state whose critical channel is
open, the message that *is* enqueued carries only the `data` binding: the
uninterpreted `extra` field of the input `params` is absent from the
enqueued message's `params`. -/
theorem C5_counterexample :
    (submit_message (ProcState.new 0)
      (.wellFormed (.obj [("service", .str "tracking"),
        ("params", .obj [("vin", .str "V1"), ("timestamp", .num 1700000000),
          ("data", .obj [("x", .num 1)]), ("extra", .num 2)])]))
      5 0 0).map (fun pr => pr.2.dropLog) = some ["queue full"] ∧
    (submit_message (ProcState.new 0)
      (.wellFormed (.obj [("service", .str "tracking"),
        ("params", .obj [("vin", .str "V1"), ("timestamp", .num 1700000000),
          ("data", .obj [("x", .num 1)]), ("extra", .num 2)])]))
      5 0 0).map (fun pr => pr.2.stats.messages_received) = some 0 ∧
    (submit_message (ProcState.new 0)
      (.wellFormed (.obj [("service", .str "tracking"),
        ("params", .obj [("vin", .str "V1"), ("timestamp", .num 1700000000),
          ("data", .obj [("x", .num 1)]), ("extra", .num 2)])]))
      5 0 0).map (fun pr => pr.2.criticalQ.buffer) = some [] ∧
    (submit_message
      { ProcState.new 0 with criticalQ := { buffer := [], closed := false } }
      (.wellFormed (.obj [("service", .str "tracking"),
        ("params", .obj [("vin", .str "V1"), ("timestamp", .num 1700000000),
          ("data", .obj [("x", .num 1)]), ("extra", .num 2)])]))
      5 0 0).map (fun pr => pr.2.criticalQ.buffer) =
      some
        [{ service := "tracking", vin := "V1", timestamp := 1700000000,
           params := [("data", .obj [("x", .num 1)])],
           channel := "tracking", run_scene := none }] ∧
    List.lookup "extra"
      [(("data" : String), JsonValue.obj [("x", .num 1)])] = none ∧
    List.lookup "extra"
      [(("vin" : String), JsonValue.str "V1"),
       ("timestamp", .num 1700000000), ("data", .obj [("x", .num 1)]),
       ("extra", .num 2)] = some (.num 2) :=
  ⟨rfl, rfl, rfl, rfl, rfl, rfl⟩

/-- **C5 (amended).** Whenever a submitted frame is accepted and enqueued —
which requires an open target channel; a processor built by `new()` has
only closed channels (every receiver is dropped there, and `start()`
rewires a local clone, not `self`), so its submissions are counted as
queue-full drops instead — the enqueued message's `params` map holds
**only** the `data` binding copied from the input `params`; every other
input `params` field, interpreted (`vin`/`timestamp`/`run_scene`, which
survive only in their dedicated record fields) or unknown, is absent from
the enqueued `params`. -/
theorem C5_amended (st : ProcState) (v : JsonValue) (now clockNanos : ℕ)
    (nowSecs : ℚ)
    (hrec : (submit_message st (.wellFormed v) now clockNanos nowSecs).map
        (fun pr => pr.2.stats.messages_received) =
      some ((st.stats.messages_received + 1) % U64MOD)) :
    ∃ m d, extractMessage v nowSecs = some (.ok m) ∧
      ((v.getField "params").asObject.getD []).lookup "data" = some d ∧
      m.params = [("data", d)] ∧
      (∀ k, k ≠ "data" → m.params.lookup k = none) ∧
      ((submit_message st (.wellFormed v) now clockNanos nowSecs).map
          (fun pr => pr.2.criticalQ.buffer) =
            some (st.criticalQ.buffer ++ [m]) ∨
       (submit_message st (.wellFormed v) now clockNanos nowSecs).map
          (fun pr => pr.2.normalQ.buffer) =
            some (st.normalQ.buffer ++ [m]) ∨
       (submit_message st (.wellFormed v) now clockNanos nowSecs).map
          (fun pr => pr.2.backgroundQ.buffer) =
            some (st.backgroundQ.buffer ++ [m])) := by
  rcases submit_cases st v now clockNanos nowSecs with
    ⟨hnone, hsub⟩ | ⟨e, hext, hsub⟩ | ⟨m, hext, hval, hsub⟩ |
    ⟨m, hext, hval, hcases⟩
  · rw [hsub] at hrec
    cases hrec
  · rw [hsub] at hrec
    exact absurd (Option.some.inj hrec).symm (succ_mod_ne _)
  · rw [hsub] at hrec
    exact absurd (Option.some.inj hrec).symm (succ_mod_ne _)
  · obtain ⟨fields, hpf, hshape⟩ := extract_ok_shape v nowSecs m hext
    have hds : (m.params.lookup "data").isSome = true := by
      unfold VehicleMessage.is_valid at hval
      simp only [Bool.and_eq_true] at hval
      exact hval.2
    obtain ⟨d, hd, hp⟩ :
        ∃ d, fields.lookup "data" = some d ∧ m.params = [("data", d)] := by
      rcases hshape with good | ⟨hd0, hp0⟩
      · exact good
      · rw [hp0] at hds
        cases hds
    have hlook : ∀ k, k ≠ "data" → m.params.lookup k = none := by
      intro k hk
      rw [hp]
      simp only [List.lookup]
      rw [beq_eq_false_iff_ne.mpr hk]
    have hdata : ((v.getField "params").asObject.getD []).lookup "data" =
        some d := by
      rw [hpf]
      exact hd
    rcases hcases with h | h | h | ⟨ch, hc, h⟩ | ⟨ch, hc, h⟩ | ⟨ch, hc, h⟩
    · rw [h] at hrec
      exact absurd (Option.some.inj hrec).symm (succ_mod_ne _)
    · rw [h] at hrec
      exact absurd (Option.some.inj hrec).symm (succ_mod_ne _)
    · rw [h] at hrec
      exact absurd (Option.some.inj hrec).symm (succ_mod_ne _)
    · obtain ⟨-, -, hch⟩ := trySend_some hc
      subst hch
      exact ⟨m, d, hext, hdata, hp, hlook, Or.inl (by rw [h]; rfl)⟩
    · obtain ⟨-, -, hch⟩ := trySend_some hc
      subst hch
      exact ⟨m, d, hext, hdata, hp, hlook, Or.inr (Or.inl (by rw [h]; rfl))⟩
    · obtain ⟨-, -, hch⟩ := trySend_some hc
      subst hch
      exact ⟨m, d, hext, hdata, hp, hlook, Or.inr (Or.inr (by rw [h]; rfl))⟩

/-- **C5 witness.** The amended pass-through property at the concrete frame
of the counterexample, submitted at a coordinator state whose critical
channel is open (the situation of the channels built inside `start()`; a
processor from `new()` has only closed ones), where the frame is indeed
accepted and enqueued. -/
theorem C5_witness :
    ∃ m d,
      extractMessage (.obj [("service", .str "tracking"),
        ("params", .obj [("vin", .str "V1"), ("timestamp", .num 1700000000),
          ("data", .obj [("x", .num 1)]), ("extra", .num 2)])]) 0 =
        some (.ok m) ∧
      (((JsonValue.obj [("service", .str "tracking"),
        ("params", .obj [("vin", .str "V1"), ("timestamp", .num 1700000000),
          ("data", .obj [("x", .num 1)]),
          ("extra", .num 2)])]).getField
            "params").asObject.getD []).lookup "data" = some d ∧
      m.params = [("data", d)] ∧
      (∀ k, k ≠ "data" → m.params.lookup k = none) ∧
      ((submit_message
          { ProcState.new 0 with
              criticalQ := { buffer := [], closed := false } }
          (.wellFormed (.obj [("service", .str "tracking"),
            ("params", .obj [("vin", .str "V1"),
              ("timestamp", .num 1700000000),
              ("data", .obj [("x", .num 1)]), ("extra", .num 2)])]))
          5 0 0).map (fun pr => pr.2.criticalQ.buffer) =
          some (({ ProcState.new 0 with
              criticalQ :=
                { buffer := [], closed := false } } :
            ProcState).criticalQ.buffer ++ [m]) ∨
       (submit_message
          { ProcState.new 0 with
              criticalQ := { buffer := [], closed := false } }
          (.wellFormed (.obj [("service", .str "tracking"),
            ("params", .obj [("vin", .str "V1"),
              ("timestamp", .num 1700000000),
              ("data", .obj [("x", .num 1)]), ("extra", .num 2)])]))
          5 0 0).map (fun pr => pr.2.normalQ.buffer) =
          some (({ ProcState.new 0 with
              criticalQ :=
                { buffer := [], closed := false } } :
            ProcState).normalQ.buffer ++ [m]) ∨
       (submit_message
          { ProcState.new 0 with
              criticalQ := { buffer := [], closed := false } }
          (.wellFormed (.obj [("service", .str "tracking"),
            ("params", .obj [("vin", .str "V1"),
              ("timestamp", .num 1700000000),
              ("data", .obj [("x", .num 1)]), ("extra", .num 2)])]))
          5 0 0).map (fun pr => pr.2.backgroundQ.buffer) =
          some (({ ProcState.new 0 with
              criticalQ :=
                { buffer := [], closed := false } } :
            ProcState).backgroundQ.buffer ++ [m])) :=
  C5_amended
    { ProcState.new 0 with criticalQ := { buffer := [], closed := false } }
    (.obj [("service", .str "tracking"),
      ("params", .obj [("vin", .str "V1"), ("timestamp", .num 1700000000),
        ("data", .obj [("x", .num 1)]), ("extra", .num 2)])])
    5 0 0 (by decide)

/-- `castF64ToU64` depends on its argument only through the argument's
floor: Rust's saturating `as u64` cast of two reals with equal floors
agrees (both negative-floor values go to 0, both nonnegative-floor values
truncate to the shared floor, saturating at `2^64 - 1`). -/
lemma castF64_floor_congr {q1 q2 : ℚ} (h : q1.floor = q2.floor) :
    castF64ToU64 q1 = castF64ToU64 q2 := by
  have hfl : ∀ q : ℚ, ⌊q⌋ = q.floor := fun q => by
    rw [Rat.floor_def, ← Rat.floor_def']
  have hneg : ∀ q : ℚ, q < 0 ↔ q.floor < 0 := fun q => by
    rw [← hfl, ← not_le, ← not_le, not_iff_not, Int.floor_nonneg]
  unfold castF64ToU64
  by_cases h1 : q1 < 0
  · have h2 : q2 < 0 := by
      rw [hneg, ← h, ← hneg]
      exact h1
    rw [if_pos h1, if_pos h2]
  · have h2 : ¬ q2 < 0 := by
      rw [hneg, ← h, ← hneg]
      exact h1
    rw [if_neg h1, if_neg h2, h]

/-- **C7 (confirmed).** Two messages whose
`(service, vin, ⌊timestamp⌋, data payload)` tuples agree produce identical
`get_hash` fingerprints (in the embedding, `serde_json`'s default map is a
`BTreeMap`, so a canonical `data` form is the `JsonValue` itself); in
particular, messages identical except in the fractional part of
`timestamp` collide. -/
theorem C7 (m₁ m₂ : VehicleMessage)
    (hs : m₁.service = m₂.service) (hv : m₁.vin = m₂.vin)
    (ht : m₁.timestamp.floor = m₂.timestamp.floor)
    (hd : m₁.params.lookup "data" = m₂.params.lookup "data") :
    m₁.get_hash = m₂.get_hash := by
  unfold VehicleMessage.get_hash
  rw [hs, hv, castF64_floor_congr ht, hd]

/-- **C7 witness.** Two concrete messages identical except in the
fractional part of the timestamp (5.2 vs 5.9) have the same fingerprint. -/
theorem C7_witness :
    VehicleMessage.get_hash
      { service := "tracking", vin := "V1", timestamp := 26 / 5,
        params := [("data", .num 1)], channel := "tracking",
        run_scene := none } =
    VehicleMessage.get_hash
      { service := "tracking", vin := "V1", timestamp := 59 / 10,
        params := [("data", .num 1)], channel := "tracking",
        run_scene := none } :=
  C7 _ _ rfl rfl (by norm_num [Rat.floor_def']) rfl

/-- **C2 witness.** The amended exception clause at the concrete
panic-free invalid frame: a shape error together with a dropped-counter
increment. -/
theorem C2_witness :
    (∃ s, (submit_message (ProcState.new 0)
      (.wellFormed (.obj [("service", .str "tracking"),
        ("params", .obj [("vin", .str "V1"), ("timestamp", .num (-1)),
          ("data", .obj [])])]))
      0 0 0).map Prod.fst = some (.error (.InvalidMessage s))) ∧
    (submit_message (ProcState.new 0)
      (.wellFormed (.obj [("service", .str "tracking"),
        ("params", .obj [("vin", .str "V1"), ("timestamp", .num (-1)),
          ("data", .obj [])])]))
      0 0 0).map (fun pr => pr.2.stats.messages_dropped) = some 1 := by
  have h := (C2_amended (ProcState.new 0)
    (.wellFormed (.obj [("service", .str "tracking"),
      ("params", .obj [("vin", .str "V1"), ("timestamp", .num (-1)),
        ("data", .obj [])])]))
    0 0 0).1
    ⟨.obj [("service", .str "tracking"),
      ("params", .obj [("vin", .str "V1"), ("timestamp", .num (-1)),
        ("data", .obj [])])],
     { service := "tracking", vin := "V1", timestamp := -1,
       params := [("data", .obj [])], channel := "tracking",
       run_scene := none },
     rfl, rfl, rfl⟩
  exact ⟨h.1, h.2.1⟩

/-- **C3 counterexample.** The claim says `is_recoverable` is true for every
`JsonError` and `InvalidMessage` value; in `src/error.rs` the `matches!`
covers only `QueueFull | Timeout | NanomsgError(_)`, so both are `false`. -/
theorem C3_counterexample :
    VehicleError.is_recoverable (.JsonError "parse failed") = false ∧
    VehicleError.is_recoverable (.InvalidMessage "Missing service field") =
      false := by
  decide

/-- **C3 (amended).** `is_recoverable` returns true for exactly the
`QueueFull`, `Timeout` and `NanomsgError` values; it returns false for every
`JsonError`, `InvalidMessage` and `ConfigError` value (and for `IoError` and
`ServiceNotFound`). -/
theorem C3_amended :
    ∀ e : VehicleError,
      e.is_recoverable = true ↔
        (e = .QueueFull ∨ e = .Timeout ∨ ∃ s, e = .NanomsgError s) := by
  intro e
  cases e <;> simp [VehicleError.is_recoverable]

/-- **C4 counterexample.** From a fresh coordinator, submitting the
parseable panic-free frame
`{"service":"tracking","params":{"vin":"V1","timestamp":-1,"data":{}}}`
(whose record fails validation) increments `dropped` without touching
`received`; `get_drop_rate` then returns 0 while the claimed formula
`dropped / max(1, received)` gives 1.  Also, a stats value with
`dropped > received` (reachable via duplicate drops after one reception)
yields a drop rate of 2, outside the claimed interval `[0, 1]`. -/
theorem C4_counterexample :
    (submit_message (ProcState.new 0)
        (.wellFormed (.obj [("service", .str "tracking"),
          ("params", .obj [("vin", .str "V1"), ("timestamp", .num (-1)),
            ("data", .obj [])])]))
        0 0 0).map (fun pr => pr.2.stats.messages_received) = some 0 ∧
    (submit_message (ProcState.new 0)
        (.wellFormed (.obj [("service", .str "tracking"),
          ("params", .obj [("vin", .str "V1"), ("timestamp", .num (-1)),
            ("data", .obj [])])]))
        0 0 0).map (fun pr => pr.2.stats.messages_dropped) = some 1 ∧
    (submit_message (ProcState.new 0)
        (.wellFormed (.obj [("service", .str "tracking"),
          ("params", .obj [("vin", .str "V1"), ("timestamp", .num (-1)),
            ("data", .obj [])])]))
        0 0 0).map (fun pr => pr.2.stats.get_drop_rate) = some 0 ∧
    ((1 : ℚ) / (max 1 0 : ℕ) = 1 ∧ (0 : ℚ) ≠ 1) ∧
    ProcessingStats.get_drop_rate ⟨1, 0, 2, 0, 0, none⟩ = 2 ∧
    ¬ ((2 : ℚ) ≤ 1) := by
  refine ⟨rfl, rfl, rfl, ⟨by norm_num, by norm_num⟩, ?_, by norm_num⟩
  norm_num [ProcessingStats.get_drop_rate]

/-- **C4 (amended).** `get_drop_rate()` equals
`messages_dropped / messages_received` when `messages_received > 0` and 0
otherwise (so it matches `dropped / max(1, received)` only when
`received > 0` or `dropped = 0`); it lies in `[0, 1]` whenever
`dropped ≤ received`; and on a freshly created stats object it equals 0. -/
theorem C4_amended :
    ∀ s : ProcessingStats,
      (0 < s.messages_received →
        s.get_drop_rate =
          (s.messages_dropped : ℚ) / (s.messages_received : ℚ)) ∧
      (s.messages_received = 0 → s.get_drop_rate = 0) ∧
      (s.messages_dropped ≤ s.messages_received →
        0 ≤ s.get_drop_rate ∧ s.get_drop_rate ≤ 1) ∧
      (∀ now, (ProcessingStats.new now).get_drop_rate = 0) := by
  intro s
  refine ⟨?_, ?_, ?_, ?_⟩
  · intro h
    simp [ProcessingStats.get_drop_rate, h]
  · intro h
    simp [ProcessingStats.get_drop_rate, h]
  · intro h
    unfold ProcessingStats.get_drop_rate
    split
    · rename_i hpos
      constructor
      · positivity
      · rw [div_le_one (by exact_mod_cast hpos)]
        exact_mod_cast h
    · exact ⟨le_refl 0, by norm_num⟩
  · intro now
    simp [ProcessingStats.get_drop_rate, ProcessingStats.new]

/-- **C4 witness.** The amended drop-rate facts evaluated at concrete stats:
one drop over two receptions reads back as 1/2 and lies in `[0, 1]`, and a
fresh stats object reads 0. -/
theorem C4_witness :
    ProcessingStats.get_drop_rate ⟨2, 0, 1, 0, 0, none⟩ = 1 / 2 ∧
    (0 ≤ ProcessingStats.get_drop_rate ⟨2, 0, 1, 0, 0, none⟩ ∧
      ProcessingStats.get_drop_rate ⟨2, 0, 1, 0, 0, none⟩ ≤ 1) ∧
    (ProcessingStats.new 0).get_drop_rate = 0 := by
  have h1 := (C4_amended ⟨2, 0, 1, 0, 0, none⟩).1 (by norm_num)
  have h2 := (C4_amended ⟨2, 0, 1, 0, 0, none⟩).2.2.1 (by norm_num)
  have h3 := (C4_amended ⟨2, 0, 1, 0, 0, none⟩).2.2.2 0
  refine ⟨?_, h2, h3⟩
  rw [h1]
  norm_num

/-- **C6 counterexample.** At prior average 1 µs and new sample 2 µs
(2000 ns), the source's `u64` update `(avg * 9 + new) / 10` stores 1,
whereas the claimed exact blend `0.9·old + 0.1·s` is 1.1 — the stored value
is not `0.9·old + 0.1·s`. -/
theorem C6_counterexample :
    (ProcessingStats.update_processing_time ⟨0, 0, 0, 1, 0, none⟩ 2000
        0).avg_processing_time_us = 1 ∧
    (9 / 10 : ℚ) * 1 + (1 / 10 : ℚ) * 2 = 11 / 10 ∧
    ((1 : ℚ) ≠ 11 / 10) := by
  refine ⟨rfl, by norm_num, by norm_num⟩

/-- **C6 (amended).** `update_processing_time` converts the duration to
whole microseconds and, when the stored average is nonzero (and the `u64`
expression does not wrap), stores `⌊0.9·old + 0.1·s⌋` — the weighted blend
rounded down by integer division `(old * 9 + s) / 10` — while a zero stored
average (in particular the very first sample) is initialized to the sample
exactly. -/
theorem C6_amended :
    ∀ (s : ProcessingStats) (durationNs now : ℕ),
      (s.avg_processing_time_us ≠ 0 →
        s.avg_processing_time_us * 9 + (durationNs / 1000) % U64MOD < U64MOD →
        (((s.update_processing_time durationNs now).avg_processing_time_us :
            ℤ) =
          ⌊(9 / 10 : ℚ) * (s.avg_processing_time_us : ℚ) +
            (1 / 10 : ℚ) * (((durationNs / 1000) % U64MOD : ℕ) : ℚ)⌋)) ∧
      (s.avg_processing_time_us = 0 →
        (s.update_processing_time durationNs now).avg_processing_time_us =
          (durationNs / 1000) % U64MOD) := by
  intro s durationNs now
  constructor
  · intro hne hlt
    unfold ProcessingStats.update_processing_time ProcessingStats.updateAvg
    simp only [hne, if_false]
    rw [Nat.mod_eq_of_lt hlt]
    have hq : (9 / 10 : ℚ) * (s.avg_processing_time_us : ℚ) +
        (1 / 10 : ℚ) * (((durationNs / 1000) % U64MOD : ℕ) : ℚ) =
        ((s.avg_processing_time_us * 9 + (durationNs / 1000) % U64MOD : ℕ) :
          ℚ) / ((10 : ℕ) : ℚ) := by
      push_cast
      ring
    rw [hq, Rat.floor_natCast_div_natCast]
    push_cast
    ring
  · intro h0
    unfold ProcessingStats.update_processing_time ProcessingStats.updateAvg
    simp [h0]

/-- **C6 witness.** The amended update at old average 3 µs and sample 7 µs
(7000 ns): the stored value is `⌊0.9·3 + 0.1·7⌋ = 3`. -/
theorem C6_witness :
    ((ProcessingStats.update_processing_time ⟨0, 0, 0, 3, 0, none⟩ 7000
        0).avg_processing_time_us : ℤ) =
      ⌊(9 / 10 : ℚ) * ((3 : ℕ) : ℚ) +
        (1 / 10 : ℚ) * (((7000 / 1000) % U64MOD : ℕ) : ℚ)⌋ := by
  have h := (C6_amended ⟨0, 0, 0, 3, 0, none⟩ 7000 0).1 (by decide)
    (by decide)
  exact h

/-- **C8 (confirmed).** For every sampling config, service and clock value:
a configured rate ≥ 1.0 makes `should_process` return accept for every
clock reading (so without consulting the pseudo-random value), and a rate of
exactly 0.0 makes it never accept. -/
theorem C8 :
    ∀ (c : SamplingConfig) (service : String) (clockNanos : ℕ),
      (1 ≤ c.get_rate service →
        c.should_process service clockNanos = true) ∧
      (c.get_rate service = 0 →
        c.should_process service clockNanos = false) := by
  intro c service clockNanos
  constructor
  · intro h
    simp [SamplingConfig.should_process, h]
  · intro h
    unfold SamplingConfig.should_process
    rw [h]
    norm_num
    positivity

/-- **C8 witness.** In the default config, `tracking` has rate 1 and is
always accepted (here at clock reading 12345); after setting `traj`'s rate
to 0, a `traj` message is rejected at every clock reading (here 6789). -/
theorem C8_witness :
    SamplingConfig.default.should_process "tracking" 12345 = true ∧
    (SamplingConfig.default.set_rate "traj" 0).should_process "traj" 6789 =
      false := by
  constructor
  · exact (C8 SamplingConfig.default "tracking" 12345).1 (by norm_num
      [SamplingConfig.get_rate, SamplingConfig.default, List.lookup])
  · exact (C8 (SamplingConfig.default.set_rate "traj" 0) "traj" 6789).2
      (by norm_num [SamplingConfig.get_rate, SamplingConfig.set_rate,
        SamplingConfig.insertRate, List.lookup])

/-- **C9 (confirmed).** `set_rate(s, r)` followed by `get_rate(s)` reads
back `clamp(r, 0, 1) = min 1 (max 0 r)`: below 0 reads back as 0, above 1
as 1, and a rate already in `[0, 1]` reads back unchanged. -/
theorem C9 :
    ∀ (c : SamplingConfig) (service : String) (r : ℚ),
      (c.set_rate service r).get_rate service = min 1 (max 0 r) ∧
      (r < 0 → (c.set_rate service r).get_rate service = 0) ∧
      (1 < r → (c.set_rate service r).get_rate service = 1) ∧
      (0 ≤ r → r ≤ 1 → (c.set_rate service r).get_rate service = r) := by
  intro c service r
  have hmain : (c.set_rate service r).get_rate service = min 1 (max 0 r) := by
    simp [SamplingConfig.get_rate, SamplingConfig.set_rate,
      SamplingConfig.insertRate, List.lookup]
  refine ⟨hmain, ?_, ?_, ?_⟩
  · intro hr
    rw [hmain, max_eq_left hr.le, min_eq_right (by norm_num)]
  · intro hr
    rw [hmain, max_eq_right (by linarith), min_eq_left hr.le]
  · intro h0 h1
    rw [hmain, max_eq_right h0, min_eq_right h1]

/-- **C9 witness.** Clamping read-back at concrete rates on the default
config: 2 reads back as 1, −1 as 0, and 1/2 as itself. -/
theorem C9_witness :
    (SamplingConfig.default.set_rate "traj" 2).get_rate "traj" = 1 ∧
    (SamplingConfig.default.set_rate "traj" (-1)).get_rate "traj" = 0 ∧
    (SamplingConfig.default.set_rate "traj" (1 / 2)).get_rate "traj" =
      1 / 2 := by
  refine ⟨(C9 SamplingConfig.default "traj" 2).2.2.1 (by norm_num),
    (C9 SamplingConfig.default "traj" (-1)).2.1 (by norm_num),
    (C9 SamplingConfig.default "traj" (1 / 2)).2.2.2 (by norm_num)
      (by norm_num)⟩

/-- **C10 (confirmed).** A zero stored average is the uninitialized
sentinel: `update_processing_time` then stores the new sample wholesale; a
sample that truncates to 0 µs (duration < 1000 ns) leaves the average at 0,
and the next sample re-initializes the average to itself rather than being
blended with weight 0.1 (for a positive next sample the blend `s / 10`
differs from `s`). -/
theorem C10 (s : ProcessingStats) (durationNs now durNs2 now2 : ℕ)
    (h0 : s.avg_processing_time_us = 0) :
    (s.update_processing_time durationNs now).avg_processing_time_us =
      (durationNs / 1000) % U64MOD ∧
    (durationNs < 1000 →
      (s.update_processing_time durationNs now).avg_processing_time_us = 0 ∧
      ((s.update_processing_time durationNs now).update_processing_time
          durNs2 now2).avg_processing_time_us = (durNs2 / 1000) % U64MOD ∧
      (0 < durNs2 / 1000 → durNs2 / 1000 < U64MOD →
        (durNs2 / 1000) % U64MOD ≠ ((0 * 9 + (durNs2 / 1000) % U64MOD) %
          U64MOD) / 10)) := by
  have hzero : ∀ (st : ProcessingStats) (d n : ℕ),
      st.avg_processing_time_us = 0 →
      (st.update_processing_time d n).avg_processing_time_us =
        (d / 1000) % U64MOD := by
    intro st d n h
    unfold ProcessingStats.update_processing_time ProcessingStats.updateAvg
    simp [h]
  have hwhole := hzero s durationNs now h0
  refine ⟨hwhole, ?_⟩
  intro hlt
  have hz : (durationNs / 1000) % U64MOD = 0 := by
    rw [Nat.div_eq_of_lt hlt]
    rfl
  have hfirst : (s.update_processing_time durationNs now).avg_processing_time_us
      = 0 := by rw [hwhole, hz]
  refine ⟨hfirst, hzero _ _ _ hfirst, ?_⟩
  intro hpos hsmall
  simp only [Nat.zero_mul, Nat.zero_add]
  rw [Nat.mod_eq_of_lt hsmall, Nat.mod_eq_of_lt hsmall]
  intro heq
  have hd := Nat.div_lt_self hpos (by norm_num : 1 < 10)
  omega

/-- **C10 witness.** From a fresh stats object (average 0), a 999 ns
duration leaves the average at 0, and the following 5000 ns sample
re-initializes it to 5 µs. -/
theorem C10_witness :
    ((ProcessingStats.new 0).update_processing_time 999
        0).avg_processing_time_us = 0 ∧
    (((ProcessingStats.new 0).update_processing_time 999
        0).update_processing_time 5000 7).avg_processing_time_us = 5 := by
  have h := (C10 (ProcessingStats.new 0) 999 0 5000 7 rfl).2 (by norm_num)
  exact ⟨h.1, h.2.1⟩
